import Mathlib

/-!
Verification of the release-gate checker (`ci/release_gates/check_gates.py`).

The script is embedded shallowly: JSON documents become an inductive `Json`
type, Python's dynamic attribute/`.get`/comparison/division semantics become
`Except PyErr`-valued helpers (an `AttributeError`, `TypeError` or
`ZeroDivisionError` raised by the Python code becomes an `Except.error`), and
each gate evaluator becomes a Lean function of the same shape as its Python
source.  Python numbers are modelled as exact rationals; the decimal rendering
of numbers inside diagnostic messages abstracts Python's float formatting
(no property proved here depends on the rendered digits).
-/

/-- A JSON value as produced by `json.load`.  Numbers are modelled as exact
rationals; Python booleans are kept separate but compare as numbers, as in
Python. -/
inductive Json where
  | null : Json
  | bool (b : Bool) : Json
  | num (q : ℚ) : Json
  | str (s : String) : Json
  | arr (elems : List Json) : Json
  | obj (fields : List (String × Json)) : Json

/-- The Python exceptions the script can raise uncaught: the evaluators'
dynamic-typing errors, and the `UnicodeDecodeError` that `json.load` raises
on undecodable bytes — a `ValueError` that is neither a `json.JSONDecodeError`
nor an `IOError`, so the loader's `except` clause does not catch it. -/
inductive PyErr where
  | attributeError : PyErr
  | typeError : PyErr
  | zeroDivisionError : PyErr
  | unicodeDecodeError : PyErr
deriving DecidableEq

/-- Numeric view of a Json value: Python treats `bool` as a number
(`True == 1`, `False == 0`); every other non-number has no numeric view. -/
def Json.asNum : Json → Option ℚ
  | .num q => some q
  | .bool b => some (if b then 1 else 0)
  | _ => none

/-- Lookup in a JSON object.  `json.load` builds a Python dict, where a later
duplicate key overwrites an earlier one, so the fold keeps the last match. -/
def lookupD (fields : List (String × Json)) (key : String) (dflt : Json) : Json :=
  fields.foldl (fun acc kv => if kv.1 = key then kv.2 else acc) dflt

/-- Python `x.get(key, dflt)`: defined on dicts, an `AttributeError` on any
other value. -/
def pyGet (j : Json) (key : String) (dflt : Json) : Except PyErr Json :=
  match j with
  | .obj fields => .ok (lookupD fields key dflt)
  | _ => .error .attributeError

/-- Python `x == q` against a numeric literal: numeric comparison when `x` is
a number (or bool), otherwise `False` (no exception). -/
def pyEqNum (j : Json) (q : ℚ) : Bool :=
  match j.asNum with
  | some x => x == q
  | none => false

/-- Python `x > q` against a numeric literal: a `TypeError` when `x` is not a
number. -/
def pyGtNum (j : Json) (q : ℚ) : Except PyErr Bool :=
  match j.asNum with
  | some x => .ok (decide (x > q))
  | none => .error .typeError

/-- Python `x < q` against a numeric literal: a `TypeError` when `x` is not a
number. -/
def pyLtNum (j : Json) (q : ℚ) : Except PyErr Bool :=
  match j.asNum with
  | some x => .ok (decide (x < q))
  | none => .error .typeError

/-- Python `a / b`: true division; `TypeError` on non-numbers,
`ZeroDivisionError` on a zero divisor. -/
def pyDiv (a b : Json) : Except PyErr ℚ :=
  match a.asNum, b.asNum with
  | some x, some y => if y = 0 then .error .zeroDivisionError else .ok (x / y)
  | _, _ => .error .typeError

/-- Python `len(x)`: defined on lists, strings and dicts, a `TypeError`
otherwise. -/
def pyLen (j : Json) : Except PyErr Nat :=
  match j with
  | .arr elems => .ok elems.length
  | .str s => .ok s.length
  | .obj fields => .ok fields.length
  | _ => .error .typeError

/-- Python iteration `for e in x`: lists yield their elements, strings their
characters, dicts their keys; numbers and `None` raise a `TypeError`. -/
def pyIter (j : Json) : Except PyErr (List Json) :=
  match j with
  | .arr elems => .ok elems
  | .str s => .ok (s.data.map (fun c => Json.str c.toString))
  | .obj fields => .ok (fields.map (fun kv => Json.str kv.1))
  | _ => .error .typeError

/-- Rendering of a rational with one decimal digit, standing in for Python's
`:.1f` float formatting (the digits of non-terminating fractions are
approximate; no proved property inspects them). -/
def fmt1f (q : ℚ) : String :=
  let n : Int := round (q * 10)
  let a := n.natAbs
  (if n < 0 then "-" else "") ++ toString (a / 10) ++ "." ++ toString (a % 10)

/-- Rendering of Python's `:.1%` percentage format. -/
def fmtPct (q : ℚ) : String := fmt1f (q * 100) ++ "%"

/-- Rendering of Python's `:.0f` format. -/
def fmt0f (q : ℚ) : String := toString (round q : Int)

/-- Interpolation `str(x)` of a raw JSON value inside an f-string.  Integers
render exactly; other shapes render coarsely (no proved property inspects
them). -/
def pyStr (j : Json) : String :=
  match j with
  | .num q => if q.den = 1 then toString q.num else toString q.num ++ "/" ++ toString q.den
  | .str s => s
  | .bool b => if b then "True" else "False"
  | .null => "None"
  | .arr _ => "[...]"
  | .obj _ => "\x7b...\x7d"

/-- `check_integration_gate` (check_gates.py lines 27-46). -/
def check_integration_gate : Option Json → Except PyErr (Bool × String)
  | none => .ok (false, "Integration test results not found")
  | some integration_data => do
    let summary ← pyGet integration_data "summary" (.obj [])
    let total ← pyGet summary "total" (.num 0)
    let passed ← pyGet summary "passed" (.num 0)
    let _failed ← pyGet summary "failed" (.num 0)
    if pyEqNum total 0 then
      .ok (false, "No integration tests run")
    else do
      let gt ← pyGtNum total 0
      let pass_rate ← if gt then pyDiv passed total else .ok 0
      if pass_rate < 8/10 then
        .ok (false, "Integration pass rate too low: " ++ fmtPct pass_rate ++
          " (required: 80%)")
      else
        .ok (true, "Integration tests passed: " ++ pyStr passed ++ "/" ++
          pyStr total ++ " (" ++ fmtPct pass_rate ++ ")")

/-- `check_performance_gate` (check_gates.py lines 49-62). -/
def check_performance_gate : Option Json → Except PyErr (Bool × String)
  | none => .ok (true, "Performance data not available (optional)")
  | some perf_data => do
    let lat50 ← pyGet perf_data "latency" (.obj [])
    let _latency_p50 ← pyGet lat50 "p50" (.num 0)
    let lat95 ← pyGet perf_data "latency" (.obj [])
    let latency_p95 ← pyGet lat95 "p95" (.num 0)
    let tooHigh ← pyGtNum latency_p95 1000
    if tooHigh then
      .ok (false, "P95 latency too high: " ++ pyStr latency_p95 ++
        "ms (threshold: 1000ms)")
    else
      .ok (true, "Performance metrics acceptable (P95: " ++ pyStr latency_p95 ++ "ms)")

/-- The generator `sum(e.get('recovery_time_ms', 0) for e in healing_events)`
of check_gates.py line 76: each element is read with `.get` (an
`AttributeError` on a non-dict element) and summed (a `TypeError` on a
non-numeric value). -/
def sumRecovery : List Json → Except PyErr ℚ
  | [] => .ok 0
  | e :: rest => do
    let v ← pyGet e "recovery_time_ms" (.num 0)
    match v.asNum with
    | some q => do
      let s ← sumRecovery rest
      .ok (q + s)
    | none => .error .typeError

/-- `check_chaos_gate` (check_gates.py lines 65-80). -/
def check_chaos_gate : Option Json → Except PyErr (Bool × String)
  | none => .ok (true, "Chaos test data not available (optional)")
  | some chaos_data => do
    let healing_events ← pyGet chaos_data "healing_events" (.arr [])
    let n ← pyLen healing_events
    if n == 0 then
      .ok (true, "No healing events (system stable)")
    else do
      let elems ← pyIter healing_events
      let s ← sumRecovery elems
      let avg_recovery ← pyDiv (.num s) (.num (n : ℚ))
      if avg_recovery > 5000 then
        .ok (false, "Average recovery time too high: " ++ fmt0f avg_recovery ++
          "ms (threshold: 5000ms)")
      else
        .ok (true, "Chaos tests passed: " ++ toString n ++
          " healing events, avg recovery: " ++ fmt0f avg_recovery ++ "ms")

/-- `check_model_gate` (check_gates.py lines 83-93). -/
def check_model_gate : Option Json → Except PyErr (Bool × String)
  | none => .ok (true, "Model validation data not available (optional)")
  | some model_data => do
    let accuracy ← pyGet model_data "accuracy" (.num 0)
    let low ← pyLtNum accuracy (9/10)
    let accVal := accuracy.asNum.getD 0
    if low then
      .ok (false, "Model accuracy too low: " ++ fmtPct accVal ++ " (required: 90%)")
    else
      .ok (true, "Model validation passed: accuracy " ++ fmtPct accVal)

/-- One entry of the report's `gates` mapping: `\x7b'passed': ..., 'message': ...\x7d`. -/
structure GateVerdict where
  passed : Bool
  message : String
deriving DecidableEq

/-- The aggregated result record built by `main` (check_gates.py lines
124-134). -/
structure GateReport where
  passed : Bool
  gates : List (String × GateVerdict)
  timestamp : String
deriving DecidableEq

/-- The `gates` dict literal of check_gates.py lines 113-118: the four
evaluators are invoked in order with no exception handling, so an exception
in one of them propagates and aborts the whole dict construction. -/
def runGates (integration_data perf_data chaos_data model_data : Option Json) :
    Except PyErr (List (String × (Bool × String))) := do
  let gi ← check_integration_gate integration_data
  let gp ← check_performance_gate perf_data
  let gc ← check_chaos_gate chaos_data
  let gm ← check_model_gate model_data
  .ok [("integration", gi), ("performance", gp), ("chaos", gc), ("models", gm)]

/-- The `result` dict of check_gates.py lines 124-134.  The script stores
`json.dumps(\x7b\x7d)` — the two-character string `"\x7b\x7d"` — in the
`timestamp` field (the source comment reads "Will be replaced with actual
timestamp"). -/
def buildReport (gates : List (String × (Bool × String))) : GateReport :=
  { passed := gates.all (fun g => g.2.1)
    gates := gates.map (fun g => (g.1, { passed := g.2.1, message := g.2.2 }))
    timestamp := "\x7b\x7d" }

/-- `main` after argument parsing and artifact loading (check_gates.py lines
112-151): evaluate the gates, build the report, and return it together with
the process exit status `0 if all_passed else 1`. -/
def pymain (integration_data perf_data chaos_data model_data : Option Json) :
    Except PyErr (GateReport × Nat) := do
  let gates ← runGates integration_data perf_data chaos_data model_data
  let all_passed := gates.all (fun g => g.2.1)
  let result := buildReport gates
  .ok (result, if all_passed then 0 else 1)

/-- The pass/fail bit of an evaluator outcome; an uncaught exception counts
as not passing. -/
def passedOf : Except PyErr (Bool × String) → Bool
  | .ok v => v.1
  | .error _ => false

/-- Whether an evaluator outcome is an uncaught `ZeroDivisionError`. -/
def isZeroDivError : Except PyErr (Bool × String) → Bool
  | .error .zeroDivisionError => true
  | _ => false

/-- Substring test: `strContains s pat` holds when `pat` occurs contiguously
inside `s`. -/
def strContains (s pat : String) : Bool :=
  (List.range (s.data.length + 1)).any
    (fun i => ((s.data.drop i).take pat.data.length) == pat.data)

/-- How `json.load` on an opened text-mode file can end: a parsed document;
a `json.JSONDecodeError` or an `IOError`, the two exceptions named by the
`except` clause of check_gates.py line 22; or a `UnicodeDecodeError`, raised
while decoding a file whose bytes are not valid UTF-8 — an outcome the
`except` clause does not name. -/
inductive ParseOutcome where
  | ok (j : Json) : ParseOutcome
  | jsonDecodeError (msg : String) : ParseOutcome
  | ioError (msg : String) : ParseOutcome
  | unicodeDecodeError (msg : String) : ParseOutcome

/-- `load_json_file` (check_gates.py lines 14-24) over the existence of the
target and the outcome of `json.load`: on success the optional parsed
document together with the list of warning lines printed to stderr.  The
`except (json.JSONDecodeError, IOError)` clause converts exactly those two
outcomes into a warning plus `None`; a `UnicodeDecodeError` matches neither
handler and propagates out of the function. -/
def load_json_file (filepath : String) (fileExists : Bool)
    (outcome : ParseOutcome) : Except PyErr (Option Json × List String) :=
  if fileExists = false then .ok (none, [])
  else
    match outcome with
    | .ok j => .ok (some j, [])
    | .jsonDecodeError e => .ok (none, ["Warning: Failed to load " ++ filepath ++ ": " ++ e])
    | .ioError e => .ok (none, ["Warning: Failed to load " ++ filepath ++ ": " ++ e])
    | .unicodeDecodeError _ => .error .unicodeDecodeError

/-- Modelled from the spec: well-formedness of the report timestamp, which
the spec requires to be "the current timestamp (UTC, ISO-8601, trailing `Z`
or explicit offset)" — a `YYYY-MM-DDTHH:MM:SS` core, optional fractional
seconds, and a trailing `Z` or `±HH:MM` offset. -/
def isDigits (cs : List Char) : Bool := cs.all Char.isDigit

/-- Modelled from the spec: the `±HH:MM` explicit-offset tail of an ISO-8601
timestamp. -/
def isOffsetTail (cs : List Char) : Bool :=
  match cs with
  | [h1, h2, ':', m1, m2] => isDigits [h1, h2, m1, m2]
  | _ => false

/-- Modelled from the spec: the UTC marker of an ISO-8601 timestamp, after
optional fractional seconds: `Z` or an explicit `±HH:MM` offset. -/
def isZoneTail : List Char → Bool
  | ['Z'] => true
  | '+' :: rest => isOffsetTail rest
  | '-' :: rest => isOffsetTail rest
  | '.' :: rest =>
    let frac := rest.takeWhile Char.isDigit
    let tail := rest.dropWhile Char.isDigit
    frac.length > 0 &&
      (match tail with
       | ['Z'] => true
       | '+' :: r => isOffsetTail r
       | '-' :: r => isOffsetTail r
       | _ => false)
  | _ => false

/-- Modelled from the spec: "timestamp: ISO-8601 string" with "trailing `Z`
or explicit offset" — `YYYY-MM-DDTHH:MM:SS` followed by a UTC marker. -/
def isISO8601UTC (s : String) : Bool :=
  match s.data with
  | y1 :: y2 :: y3 :: y4 :: '-' :: m1 :: m2 :: '-' :: d1 :: d2 :: 'T' ::
      h1 :: h2 :: ':' :: n1 :: n2 :: ':' :: s1 :: s2 :: rest =>
    isDigits [y1, y2, y3, y4, m1, m2, d1, d2, h1, h2, n1, n2, s1, s2] &&
      isZoneTail rest
  | _ => false

/-! Helper lemmas about the Python-semantics primitives. -/

theorem pyGet_error_attr {j : Json} {k : String} {d : Json} {e : PyErr}
    (h : pyGet j k d = .error e) : e = .attributeError := by
  cases j <;> simp [pyGet] at h <;> exact h.symm

theorem pyGtNum_error_type {j : Json} {q : ℚ} {e : PyErr}
    (h : pyGtNum j q = .error e) : e = .typeError := by
  unfold pyGtNum at h
  cases hj : j.asNum <;> rw [hj] at h <;> dsimp only at h
  · injection h with h; exact h.symm
  · cases h

theorem pyGtNum_ok_true {j : Json} {q : ℚ}
    (h : pyGtNum j q = .ok true) : ∃ y, j.asNum = some y ∧ q < y := by
  unfold pyGtNum at h
  cases hj : j.asNum <;> rw [hj] at h <;> dsimp only at h
  · cases h
  · injection h with h
    exact ⟨_, rfl, of_decide_eq_true h⟩

theorem pyDiv_error_of_pos {a b : Json} {y : ℚ} {e : PyErr}
    (hb : b.asNum = some y) (hy : 0 < y)
    (h : pyDiv a b = .error e) : e = .typeError := by
  unfold pyDiv at h
  rw [hb] at h
  cases ha : a.asNum <;> rw [ha] at h <;> dsimp only at h
  · injection h with h; exact h.symm
  · rw [if_neg (ne_of_gt hy)] at h; cases h

theorem lookupD_eq_default : ∀ (kvs : List (String × Json)) (k : String) (d : Json),
    (∀ kv ∈ kvs, kv.1 ≠ k) → lookupD kvs k d = d
  | [], _, _, _ => rfl
  | x :: xs, k, d, h => by
    simp only [lookupD, List.foldl]
    rw [if_neg (h x (List.mem_cons_self x xs))]
    exact lookupD_eq_default xs k d (fun kv hkv => h kv (List.mem_cons_of_mem x hkv))

/-- A chaos healing event with the given recovery time. -/
def mkEvent (r : ℚ) : Json := .obj [("recovery_time_ms", .num r)]

theorem sumRecovery_map (l : List ℚ) :
    sumRecovery (l.map mkEvent) = .ok l.sum := by
  induction l with
  | nil => rfl
  | cons x xs ih =>
    simp only [List.map_cons, sumRecovery, mkEvent, pyGet, lookupD, List.foldl, Json.asNum,
      Bind.bind, Except.bind, ih, List.sum_cons]
    rfl

theorem chaos_eval_cons (q : ℚ) (qs : List ℚ) :
    check_chaos_gate (some (.obj [("healing_events", .arr ((q :: qs).map mkEvent))])) =
      (if (q + qs.sum) / ((qs.length : ℚ) + 1) > 5000 then
        .ok (false, "Average recovery time too high: " ++
          fmt0f ((q + qs.sum) / ((qs.length : ℚ) + 1)) ++ "ms (threshold: 5000ms)")
      else
        .ok (true, "Chaos tests passed: " ++ toString (qs.length + 1) ++
          " healing events, avg recovery: " ++
          fmt0f ((q + qs.sum) / ((qs.length : ℚ) + 1)) ++ "ms")) := by
  have hlen : ((q :: qs).map mkEvent).length = qs.length + 1 := by
    simp
  simp only [check_chaos_gate, pyGet, lookupD, List.foldl, Bind.bind, Except.bind, pyLen, pyIter,
    if_true, hlen]
  rw [sumRecovery_map]
  have hne : ((qs.length + 1 : Nat) : ℚ) ≠ 0 := Nat.cast_ne_zero.mpr (Nat.succ_ne_zero _)
  simp only [pyDiv, Json.asNum, if_neg hne, List.sum_cons]
  norm_num

/-- The report produced when all four artifact paths are absent. -/
def reportAllAbsent : GateReport :=
  { passed := false
    gates := [("integration", ⟨false, "Integration test results not found"⟩),
      ("performance", ⟨true, "Performance data not available (optional)"⟩),
      ("chaos", ⟨true, "Chaos test data not available (optional)"⟩),
      ("models", ⟨true, "Model validation data not available (optional)"⟩)]
    timestamp := "\x7b\x7d" }

theorem all_passed_map (gs : List (String × Bool × String)) :
    (gs.map (fun g => (g.1, GateVerdict.mk g.2.1 g.2.2))).all (fun g => g.2.passed)
      = gs.all (fun g => g.2.1) := by
  induction gs with
  | nil => rfl
  | cons x xs ih => simp only [List.map_cons, List.all_cons, ih]

/-! Claim theorems. -/

/-- Claim C1: the aggregator is supposed to stamp every report with a
well-formed ISO-8601 UTC timestamp, but the code stores
`json.dumps(\x7b\x7d)`: the `timestamp` field of every report it builds is
the two-character string `"\x7b\x7d"`, which is not an ISO-8601 timestamp. -/
theorem report_timestamp_brace_stub_not_iso8601 :
    (∀ gs, (buildReport gs).timestamp = "\x7b\x7d")
    ∧ isISO8601UTC "\x7b\x7d" = false
    ∧ Except.map (fun r => r.1.timestamp) (pymain none none none none) = .ok "\x7b\x7d" :=
  ⟨fun _ => rfl, by decide, rfl⟩

/-- Claim C2: the aggregator does not catch evaluator exceptions.  On the
integration artifact `\x7b"summary": 5\x7d` the integration evaluator raises
`AttributeError` (`.get` on an int), and the exception propagates out of the
gates construction, so no gate — not even the three whose evaluators would
individually succeed on their absent artifacts — is evaluated into the
result. -/
theorem integration_evaluator_error_aborts_run :
    check_integration_gate (some (.obj [("summary", .num 5)])) = .error .attributeError
    ∧ runGates (some (.obj [("summary", .num 5)])) none none none = .error .attributeError
    ∧ check_performance_gate none = .ok (true, "Performance data not available (optional)")
    ∧ check_chaos_gate none = .ok (true, "Chaos test data not available (optional)")
    ∧ check_model_gate none = .ok (true, "Model validation data not available (optional)") :=
  ⟨rfl, rfl, rfl, rfl, rfl⟩

/-- Claim C3: for every run that produces a report, the report's overall
`passed` field equals the AND of the `passed` flags of all gate verdicts in
the report. -/
theorem overall_passed_eq_and_of_verdicts (i p c m : Option Json)
    (r : GateReport) (ec : Nat) (h : pymain i p c m = .ok (r, ec)) :
    r.passed = r.gates.all (fun g => g.2.passed) := by
  unfold pymain at h
  cases hg : runGates i p c m <;> rw [hg] at h <;> dsimp only at h
  · cases h
  · injection h with h
    have h1 : buildReport _ = r := congrArg Prod.fst h
    rw [← h1]
    exact (all_passed_map _).symm

/-- Witness for C3 at the run with all four artifacts absent. -/
theorem overall_passed_eq_and_of_verdicts_inst :
    reportAllAbsent.passed = reportAllAbsent.gates.all (fun g => g.2.passed) :=
  overall_passed_eq_and_of_verdicts none none none none reportAllAbsent 1 rfl

/-- Claim C4: whenever a run produces a report, its exit status is exactly
`0` when the report passed and exactly `1` otherwise — never any other
value. -/
theorem exit_code_bit_exact (i p c m : Option Json)
    (r : GateReport) (ec : Nat) (h : pymain i p c m = .ok (r, ec)) :
    ec = (if r.passed = true then 0 else 1) ∧ ec ≤ 1 := by
  unfold pymain at h
  cases hg : runGates i p c m <;> rw [hg] at h <;> dsimp only at h
  · cases h
  · injection h with h
    have h1 : buildReport _ = r := congrArg Prod.fst h
    have h2 := congrArg Prod.snd h
    dsimp only at h2
    constructor
    · rw [← h1, ← h2]; rfl
    · rw [← h2]
      split <;> norm_num

/-- Witness for C4 at the run with all four artifacts absent. -/
theorem exit_code_bit_exact_inst :
    (1 : Nat) = (if reportAllAbsent.passed = true then 0 else 1) ∧ (1 : Nat) ≤ 1 :=
  exit_code_bit_exact none none none none reportAllAbsent 1 rfl

/-- Claim C5: a present integration artifact whose summary has `total == 0`
fails through the distinct "No integration tests run" path, whatever the
`passed` and `failed` values are, and `check_integration_gate` never raises a
`ZeroDivisionError` on any input at all. -/
theorem integration_gate_total_zero_no_division :
    (∀ p f : Json, check_integration_gate (some (.obj [("summary",
        .obj [("total", .num 0), ("passed", p), ("failed", f)])]))
      = .ok (false, "No integration tests run"))
    ∧ (∀ d : Option Json, isZeroDivError (check_integration_gate d) = false) := by
  constructor
  · intro p f
    rfl
  · intro d
    cases d with
    | none => rfl
    | some j =>
      simp only [check_integration_gate, Bind.bind, Except.bind]
      cases h1 : pyGet j "summary" (.obj []) with
      | error e1 => dsimp only; rw [pyGet_error_attr h1]; rfl
      | ok summary =>
        dsimp only
        cases h2 : pyGet summary "total" (.num 0) with
        | error e2 => dsimp only; rw [pyGet_error_attr h2]; rfl
        | ok total =>
          dsimp only
          cases h3 : pyGet summary "passed" (.num 0) with
          | error e3 => dsimp only; rw [pyGet_error_attr h3]; rfl
          | ok passed =>
            dsimp only
            cases h4 : pyGet summary "failed" (.num 0) with
            | error e4 => dsimp only; rw [pyGet_error_attr h4]; rfl
            | ok failed =>
              dsimp only
              by_cases hz : pyEqNum total 0
              · simp [hz, isZeroDivError]
              · simp only [hz, if_false, Bool.false_eq_true]
                cases h5 : pyGtNum total 0 with
                | error e5 => dsimp only; rw [pyGtNum_error_type h5]; rfl
                | ok gt =>
                  cases gt with
                  | false =>
                    by_cases hr : (0 : ℚ) < 8/10 <;> simp [hr, isZeroDivError]
                  | true =>
                    dsimp only
                    obtain ⟨y, hy1, hy2⟩ := pyGtNum_ok_true h5
                    cases h6 : pyDiv passed total with
                    | error e6 => dsimp only; rw [pyDiv_error_of_pos hy1 hy2 h6]; rfl
                    | ok rate =>
                      dsimp only
                      by_cases hr : rate < 8/10 <;> simp [hr, isZeroDivError]

/-- Claim C6: the performance gate passes with the "optional" message when
its artifact is absent; on a present artifact with a numeric `latency.p95` it
passes exactly when `p95 ≤ 1000`, the boundary inclusive: `p95 = 1000` passes
and `p95 = 1001` fails. -/
theorem performance_gate_optional_and_inclusive_boundary :
    check_performance_gate none = .ok (true, "Performance data not available (optional)")
    ∧ strContains "Performance data not available (optional)" "optional" = true
    ∧ (∀ q : ℚ, passedOf (check_performance_gate
        (some (.obj [("latency", .obj [("p95", .num q)])]))) = decide (q ≤ 1000))
    ∧ passedOf (check_performance_gate
        (some (.obj [("latency", .obj [("p95", .num 1000)])]))) = true
    ∧ passedOf (check_performance_gate
        (some (.obj [("latency", .obj [("p95", .num 1001)])]))) = false := by
  refine ⟨rfl, by decide, ?_, ?_, ?_⟩
  · intro q
    by_cases h : (1000 : ℚ) < q
    · simp [check_performance_gate, pyGet, lookupD, pyGtNum, Json.asNum, Bind.bind,
        Except.bind, passedOf, h, not_le.mpr h]
    · simp [check_performance_gate, pyGet, lookupD, pyGtNum, Json.asNum, Bind.bind,
        Except.bind, passedOf, h, not_lt.mp h]
  · norm_num [check_performance_gate, pyGet, lookupD, pyGtNum, Json.asNum, Bind.bind,
      Except.bind, passedOf]
  · norm_num [check_performance_gate, pyGet, lookupD, pyGtNum, Json.asNum, Bind.bind,
      Except.bind, passedOf]

/-- Claim C7: a present chaos artifact with an empty `healing_events` list
passes with the "system stable" message, which differs from the
absent-artifact message; on a nonempty event list the gate passes exactly
when the mean `recovery_time_ms` is at most 5000, so a mean of 5001 fails. -/
theorem chaos_gate_empty_stable_and_mean_threshold :
    check_chaos_gate (some (.obj [("healing_events", .arr [])]))
      = .ok (true, "No healing events (system stable)")
    ∧ strContains "No healing events (system stable)" "stable" = true
    ∧ ("No healing events (system stable)" == "Chaos test data not available (optional)") = false
    ∧ (∀ (q : ℚ) (qs : List ℚ),
        passedOf (check_chaos_gate (some (.obj [("healing_events",
          .arr ((q :: qs).map mkEvent))])))
        = decide ((q + qs.sum) / ((qs.length : ℚ) + 1) ≤ 5000))
    ∧ passedOf (check_chaos_gate (some (.obj [("healing_events",
        .arr [mkEvent 5001])]))) = false := by
  refine ⟨rfl, by decide, by decide, ?_, ?_⟩
  · intro q qs
    rw [chaos_eval_cons]
    by_cases h : (q + qs.sum) / ((qs.length : ℚ) + 1) ≤ 5000
    · rw [if_neg (not_lt.mpr h)]; simp [passedOf, h]
    · rw [if_pos (not_le.mp h)]; simp [passedOf, h]
  · rw [show (Json.arr [mkEvent 5001]) = .arr (List.map mkEvent ((5001 : ℚ) :: [])) from rfl,
      chaos_eval_cons 5001 []]
    norm_num [passedOf]

/-- Claim C8: the loader is claimed never to raise for any file content, but
the `except` clause at check_gates.py line 22 catches only
`json.JSONDecodeError` and `IOError`: on a present file whose bytes are not
valid UTF-8, `json.load` raises `UnicodeDecodeError` and it escapes the
loader uncaught, aborting the run.  The two caught outcomes do degrade to
`None` with exactly one stderr warning. -/
theorem load_undecodable_bytes_escape_catch :
    load_json_file "integration.json" true (.unicodeDecodeError "invalid start byte")
      = .error .unicodeDecodeError
    ∧ (∀ fp e, load_json_file fp true (.jsonDecodeError e)
        = .ok (none, ["Warning: Failed to load " ++ fp ++ ": " ++ e]))
    ∧ (∀ fp e, load_json_file fp true (.ioError e)
        = .ok (none, ["Warning: Failed to load " ++ fp ++ ": " ++ e])) :=
  ⟨rfl, fun _ _ => rfl, fun _ _ => rfl⟩

/-- Claim C9: aggregation is deterministic — two runs on identical loaded
artifacts produce identical verdict lists (gate names, passed flags and
messages alike). -/
theorem aggregation_deterministic (i1 p1 c1 m1 i2 p2 c2 m2 : Option Json)
    (hi : i1 = i2) (hp : p1 = p2) (hc : c1 = c2) (hm : m1 = m2) :
    runGates i1 p1 c1 m1 = runGates i2 p2 c2 m2 := by
  subst hi; subst hp; subst hc; subst hm; rfl

/-- Witness for C9 at two runs on all-absent artifacts. -/
theorem aggregation_deterministic_inst :
    runGates none none none none = runGates none none none none :=
  aggregation_deterministic none none none none none none none none rfl rfl rfl rfl

/-- Claim C10: a present, parsed model artifact with no `accuracy` key fails
the model gate (the missing field defaults to 0, below the 0.90 threshold),
while an absent model artifact passes as optional. -/
theorem model_gate_missing_accuracy_fails (kvs : List (String × Json))
    (h : ∀ kv ∈ kvs, kv.1 ≠ "accuracy") :
    check_model_gate (some (.obj kvs))
      = .ok (false, "Model accuracy too low: 0.0% (required: 90%)")
    ∧ check_model_gate none = .ok (true, "Model validation data not available (optional)") := by
  constructor
  · have h1 : lookupD kvs "accuracy" (.num 0) = .num 0 := lookupD_eq_default kvs _ _ h
    have h2 : fmtPct 0 = "0.0%" := by norm_num [fmtPct, fmt1f]; rfl
    simp only [check_model_gate, pyGet, h1, Bind.bind, Except.bind, pyLtNum, Json.asNum,
      Option.getD, decide_eq_true (show (0 : ℚ) < 9/10 by norm_num), if_true, h2]
    rfl
  · rfl

/-- Witness for C10 on the empty (but present) model artifact. -/
theorem model_gate_missing_accuracy_fails_inst :
    check_model_gate (some (.obj []))
      = .ok (false, "Model accuracy too low: 0.0% (required: 90%)")
    ∧ check_model_gate none = .ok (true, "Model validation data not available (optional)") :=
  model_gate_missing_accuracy_fails [] (by intro kv hkv; cases hkv)
